import Mathlib

/-!
Verification of the sprite-sheet composer (`sprite_sheet_node.py`).

The file embeds the two components of the program:

* the grid packer `CreateSpriteSheetImageNode.create_sprite_sheet`
  (the spec's `pack`), together with its helper `tensor_to_pil`, the
  PIL paste-with-mask operation it performs per frame, and the tensor
  conversion of its result;
* the resource serializer `CreateGodotTresFileNode` (the spec's
  `write_resource`): the sub-resource emission loop of
  `generate_godot_tres_content` and the filename-selection loop of
  `create_tres_file`.

Images are modelled as dimensions, a channel count and a total pixel
function; 8-bit channel values are naturals.  The unbounded `while True`
filename scan is modelled with explicit fuel.
-/

/-- An 8-bit RGBA pixel: the four channel values as naturals. -/
structure RGBA where
  r : Nat
  g : Nat
  b : Nat
  a : Nat
  deriving DecidableEq, Repr

/-- A decoded image: width, height, channel count (3 = RGB, 4 = RGBA) and
pixel contents.  For a 3-channel image the `a` component of `px` is
unused. -/
structure Img where
  width : Nat
  height : Nat
  channels : Nat
  px : Nat → Nat → RGBA

/-- Embeds `tensor_to_pil`: keeps the frames whose channel count is 4 or
3, in input order; frames with any other channel count are skipped
(the `continue` branch). -/
def tensor_to_pil (tensor : List Img) : List Img :=
  tensor.filter (fun f => f.channels == 4 || f.channels == 3)

/-- Embeds `Image.new('RGBA', (w, h), (0, 0, 0, 0))`: a w-by-h
four-channel image with every pixel fully transparent. -/
def Image_new (w h : Nat) : Img :=
  { width := w, height := h, channels := 4, px := fun _ _ => ⟨0, 0, 0, 0⟩ }

/-- One channel of a PIL masked paste: blend of the pasted value `fg`
over the background value `bg` under the 8-bit mask value `m`. -/
def blendChannel (fg bg m : Nat) : Nat :=
  (fg * m + bg * (255 - m)) / 255

/-- Masked blend of all four channels of a pixel. -/
def blendPx (fg bg : RGBA) (m : Nat) : RGBA :=
  ⟨blendChannel fg.r bg.r m, blendChannel fg.g bg.g m,
   blendChannel fg.b bg.b m, blendChannel fg.a bg.a m⟩

/-- Embeds `grid_image.paste(pil_image, (x, y), mask)` where
`mask = pil_image.split()[3]` when the frame is RGBA and `None`
otherwise (lines 72-76 of the source): inside the pasted rectangle an
RGBA frame is blended with its own alpha channel as the mask, while an
RGB frame overwrites the pixel (alpha set to fully opaque); outside the
rectangle the canvas pixel is kept. -/
def pasteRegion (canvas img : Img) (x y : Nat) : Img :=
  { canvas with
    px := fun u v =>
      if x ≤ u ∧ u < x + img.width ∧ y ≤ v ∧ v < y + img.height then
        if img.channels = 4 then
          blendPx (img.px (u - x) (v - y)) (canvas.px u v) (img.px (u - x) (v - y)).a
        else
          ⟨(img.px (u - x) (v - y)).r, (img.px (u - x) (v - y)).g,
           (img.px (u - x) (v - y)).b, 255⟩
      else canvas.px u v }

/-- Embeds the paste loop of `create_sprite_sheet`: frame `i` goes to
destination origin `((i % c) * fw, (i / c) * fh)` (from
`row, col = divmod(i, column_count)`), and the loop breaks as soon as
`i >= cap` where `cap = column_count * row_count`. -/
def pasteLoop (fw fh c cap : Nat) : Img → Nat → List Img → Img
  | canvas, _, [] => canvas
  | canvas, i, img :: rest =>
    if cap ≤ i then canvas
    else pasteLoop fw fh c cap
      (pasteRegion canvas img (i % c * fw) (i / c * fh)) (i + 1) rest

/-- Embeds `if column_count <= 0: column_count = 1`. -/
def coerceCols (column_count : Int) : Nat :=
  if column_count ≤ 0 then 1 else column_count.toNat

/-- Embeds the auto-computed row count
`(frame_count + column_count - 1) // column_count`. -/
def autoRowCount (frame_count column_count : Nat) : Nat :=
  (frame_count + column_count - 1) / column_count

/-- Embeds `if row_count <= 0: row_count = ...` (auto-computation). -/
def effRows (frame_count column_count : Nat) (row_count : Int) : Nat :=
  if row_count ≤ 0 then autoRowCount frame_count column_count else row_count.toNat

/-- Embeds `max(img.width for img in pil_images)` (0 on the empty
list; `create_sprite_sheet` only evaluates it on non-empty lists). -/
def maxWidth (l : List Img) : Nat :=
  l.foldl (fun m f => max m f.width) 0

/-- Embeds `max(img.height for img in pil_images)`. -/
def maxHeight (l : List Img) : Nat :=
  l.foldl (fun m f => max m f.height) 0

/-- The tuple returned by `create_sprite_sheet`. -/
structure PackResult where
  composite : Img
  frame_width : Nat
  frame_height : Nat
  frame_count : Nat

/-- Embeds `CreateSpriteSheetImageNode.create_sprite_sheet` (the spec's
`pack`).  The raised `ValueError("Input images are empty.")` is modelled
as an `Except.error` carrying the message. -/
def create_sprite_sheet (images : List Img) (column_count row_count : Int) :
    Except String PackResult :=
  let pil_images := tensor_to_pil images
  if pil_images.isEmpty then Except.error "Input images are empty."
  else
    let cc := coerceCols column_count
    let rc := effRows pil_images.length cc row_count
    let fw := maxWidth pil_images
    let fh := maxHeight pil_images
    Except.ok
      { composite := pasteLoop fw fh cc (cc * rc) (Image_new (fw * cc) (fh * rc)) 0 pil_images
        frame_width := fw
        frame_height := fh
        frame_count := pil_images.length }

/-- Shape of `torch.from_numpy(np.array(grid_image).astype(...)).unsqueeze(0)`:
a leading batch dimension of 1, then height, width and the channel count
of the composite. -/
def pil_to_tensor_shape (img : Img) : List Nat :=
  [1, img.height, img.width, img.channels]

/-- One `[sub_resource]` block of the emitted .tres text: its 1-based
id and its atlas rectangle. -/
structure AtlasBlock where
  id : Nat
  x : Nat
  y : Nat
  w : Nat
  h : Nat
  deriving DecidableEq, Repr

/-- Block for frame `i` (lines 122-126 of the source):
`row, col = divmod(i, column_count)`; the rectangle is
`(col * frame_width, row * frame_height, frame_width, frame_height)`. -/
def mkAtlasBlock (frame_width frame_height column_count i : Nat) : AtlasBlock :=
  { id := i + 1
    x := i % column_count * frame_width
    y := i / column_count * frame_height
    w := frame_width
    h := frame_height }

/-- The sub-resource blocks of `generate_godot_tres_content` in emission
order, one per frame index `0 .. frame_count - 1`. -/
def subResourceBlocks (frame_width frame_height frame_count column_count : Nat) :
    List AtlasBlock :=
  (List.range frame_count).map (mkAtlasBlock frame_width frame_height column_count)

/-- Text of one sub-resource block (`rid` is the random external
resource id the block refers back to). -/
def renderBlock (b : AtlasBlock) (rid : String) : String :=
  "[sub_resource type=\"AtlasTexture\" id=\"AtlasTexture_" ++ toString b.id ++ "\"]\n"
    ++ "atlas = ExtResource(\"" ++ rid ++ "\")\n"
    ++ "region = Rect2(" ++ toString b.x ++ ", " ++ toString b.y ++ ", "
    ++ toString b.w ++ ", " ++ toString b.h ++ ")\n\n"

/-- The `sub_resources` string-accumulation loop of
`generate_godot_tres_content`. -/
def sub_resources_text (frame_width frame_height frame_count column_count : Nat)
    (rid : String) : String :=
  (List.range frame_count).foldl
    (fun acc i =>
      acc ++ renderBlock (mkAtlasBlock frame_width frame_height column_count i) rid)
    ""

/-- Embeds the Python format `f"{i:0{number_padding}}"`: the decimal
digits of `i`, left-padded with zeros to at least `padding` characters. -/
def zeroPad (padding i : Nat) : String :=
  String.mk (List.replicate (padding - (toString i).length) '0' ++ (toString i).data)

/-- Embeds `base_name = f"{...}_{i:0{number_padding}}"`; `pfx` is the
user-supplied filename stem. -/
def base_name (pfx : String) (padding i : Nat) : String :=
  pfx ++ "_" ++ zeroPad padding i

/-- Candidate `.tres` filename for sequence index `i`. -/
def tresName (pfx : String) (padding i : Nat) : String :=
  base_name pfx padding i ++ ".tres"

/-- The paired image filename: the same base name with the `.png`
extension. -/
def pngName (pfx : String) (padding i : Nat) : String :=
  base_name pfx padding i ++ ".png"

/-- Embeds the `while True` filename-selection loop of
`create_tres_file`, with explicit fuel for the unbounded scan: starting
at index `i`, return the first index whose `.tres` filename does not
already exist (`ex` is the directory-membership test
`os.path.exists`). -/
def findFreeIndex (ex : String → Bool) (pfx : String) (padding : Nat) :
    Nat → Nat → Option Nat
  | 0, _ => none
  | fuel + 1, i =>
    if ex (tresName pfx padding i) then findFreeIndex ex pfx padding fuel (i + 1)
    else some i

/-- The two filenames produced by one call of
`CreateGodotTresFileNode.create_tres_file` (the spec's
`write_resource`): the `.tres` file it writes and the paired image
filename it embeds in the content. -/
structure TresCall where
  tres : String
  png : String
  deriving DecidableEq, Repr

/-- Filename selection of `create_tres_file`: the scan starts at
sequence index 1. -/
def create_tres_file (ex : String → Bool) (pfx : String) (padding fuel : Nat) :
    Option TresCall :=
  (findFreeIndex ex pfx padding fuel 1).map
    (fun i => ⟨tresName pfx padding i, pngName pfx padding i⟩)

/-- Directory contents after `create_tres_file` has written the file
`name`. -/
def afterWrite (ex : String → Bool) (name : String) : String → Bool :=
  fun s => if s = name then true else ex s

/-! ### Helper lemmas about the packer -/

/-- On a batch whose frames all have 3 or 4 channels (the data model's
well-formed frames), `tensor_to_pil` keeps every frame. -/
lemma tensor_to_pil_valid {frames : List Img}
    (hval : ∀ f ∈ frames, f.channels = 3 ∨ f.channels = 4) :
    tensor_to_pil frames = frames := by
  apply List.filter_eq_self.mpr
  intro a ha
  rcases hval a ha with h | h <;> simp [h]

lemma pasteRegion_px (canvas img : Img) (x y u v : Nat) :
    (pasteRegion canvas img x y).px u v =
      if x ≤ u ∧ u < x + img.width ∧ y ≤ v ∧ v < y + img.height then
        if img.channels = 4 then
          blendPx (img.px (u - x) (v - y)) (canvas.px u v) (img.px (u - x) (v - y)).a
        else
          ⟨(img.px (u - x) (v - y)).r, (img.px (u - x) (v - y)).g,
           (img.px (u - x) (v - y)).b, 255⟩
      else canvas.px u v := rfl

lemma pasteLoop_width (fw fh c cap : Nat) :
    ∀ (l : List Img) (canvas : Img) (i : Nat),
      (pasteLoop fw fh c cap canvas i l).width = canvas.width := by
  intro l
  induction l with
  | nil => intro canvas i; rfl
  | cons img rest ih =>
    intro canvas i
    unfold pasteLoop
    by_cases h : cap ≤ i
    · simp [h]
    · simp [h, ih, pasteRegion]

lemma pasteLoop_height (fw fh c cap : Nat) :
    ∀ (l : List Img) (canvas : Img) (i : Nat),
      (pasteLoop fw fh c cap canvas i l).height = canvas.height := by
  intro l
  induction l with
  | nil => intro canvas i; rfl
  | cons img rest ih =>
    intro canvas i
    unfold pasteLoop
    by_cases h : cap ≤ i
    · simp [h]
    · simp [h, ih, pasteRegion]

lemma pasteLoop_channels (fw fh c cap : Nat) :
    ∀ (l : List Img) (canvas : Img) (i : Nat),
      (pasteLoop fw fh c cap canvas i l).channels = canvas.channels := by
  intro l
  induction l with
  | nil => intro canvas i; rfl
  | cons img rest ih =>
    intro canvas i
    unfold pasteLoop
    by_cases h : cap ≤ i
    · simp [h]
    · simp [h, ih, pasteRegion]

/-- The break-at-capacity loop pastes exactly the frames at indices below
`cap`, each at the grid origin computed from its index. -/
lemma pasteLoop_eq_foldl (fw fh c cap : Nat) :
    ∀ (l : List Img) (canvas : Img) (i : Nat),
      pasteLoop fw fh c cap canvas i l =
        List.foldl
          (fun cv pr => pasteRegion cv pr.2 (pr.1 % c * fw) (pr.1 / c * fh))
          canvas (List.enumFrom i (List.take (cap - i) l)) := by
  intro l
  induction l with
  | nil => intro canvas i; simp [pasteLoop]
  | cons img rest ih =>
    intro canvas i
    by_cases h : cap ≤ i
    · have hz : cap - i = 0 := by omega
      simp [pasteLoop, h, hz]
    · have hs : cap - i = (cap - (i + 1)) + 1 := by omega
      rw [hs]
      simp only [List.take_succ_cons]
      have he : List.enumFrom i (img :: List.take (cap - (i + 1)) rest)
          = (i, img) :: List.enumFrom (i + 1) (List.take (cap - (i + 1)) rest) := rfl
      rw [he]
      simp only [List.foldl_cons]
      unfold pasteLoop
      rw [if_neg h]
      exact ih _ (i + 1)

/-- Full evaluation of `create_sprite_sheet` on a non-empty well-formed
batch. -/
lemma create_sprite_sheet_eq (frames : List Img) (cc rr : Int)
    (hval : ∀ f ∈ frames, f.channels = 3 ∨ f.channels = 4) (hne : frames ≠ []) :
    create_sprite_sheet frames cc rr = Except.ok
      { composite :=
          pasteLoop (maxWidth frames) (maxHeight frames) (coerceCols cc)
            (coerceCols cc * effRows frames.length (coerceCols cc) rr)
            (Image_new (maxWidth frames * coerceCols cc)
              (maxHeight frames * effRows frames.length (coerceCols cc) rr))
            0 frames
        frame_width := maxWidth frames
        frame_height := maxHeight frames
        frame_count := frames.length } := by
  have hf : tensor_to_pil frames = frames := tensor_to_pil_valid hval
  have hemp : frames.isEmpty = false := by
    cases frames with
    | nil => exact absurd rfl hne
    | cons a t => rfl
  unfold create_sprite_sheet
  rw [hf]
  simp only [hemp, Bool.false_eq_true, if_false]

lemma foldl_max_init (g : Img → Nat) :
    ∀ (l : List Img) (a : Nat), a ≤ List.foldl (fun m f => max m (g f)) a l := by
  intro l
  induction l with
  | nil => intro a; exact Nat.le_refl a
  | cons x t ih =>
    intro a
    simp only [List.foldl_cons]
    exact le_trans (Nat.le_max_left a (g x)) (ih (max a (g x)))

lemma mem_le_foldl_max (g : Img → Nat) :
    ∀ (l : List Img) (a : Nat) (f : Img), f ∈ l →
      g f ≤ List.foldl (fun m x => max m (g x)) a l := by
  intro l
  induction l with
  | nil => intro a f hf; cases hf
  | cons x t ih =>
    intro a f hf
    simp only [List.foldl_cons]
    rcases List.mem_cons.mp hf with h | h
    · subst h
      exact le_trans (Nat.le_max_right a (g f)) (foldl_max_init g t (max a (g f)))
    · exact ih (max a (g x)) f h

/-- Ceiling-division property of the auto-computed row count. -/
lemma autoRowCount_ge (n c : Nat) (hc : 1 ≤ c) : n ≤ c * autoRowCount n c := by
  have h1 := Nat.div_add_mod (n + c - 1) c
  have h2 : (n + c - 1) % c < c := Nat.mod_lt _ (by omega)
  unfold autoRowCount
  generalize hq : c * ((n + c - 1) / c) = t at h1 ⊢
  generalize hr : (n + c - 1) % c = s at h1 h2
  omega

/-! ### Helper lemmas about the serializer -/

lemma append_cancel_left_chars :
    ∀ (xs ys zs : List Char), xs ++ ys = xs ++ zs → ys = zs := by
  intro xs
  induction xs with
  | nil => intro ys zs h; simpa using h
  | cons a t ih =>
    intro ys zs h
    simp only [List.cons_append, List.cons.injEq] at h
    exact ih ys zs h.2

lemma string_data_append (s t : String) : (s ++ t).data = s.data ++ t.data := rfl

lemma string_ext {s t : String} (h : s.data = t.data) : s = t := by
  cases s
  cases t
  exact congrArg String.mk h

lemma zeroPad_data (padding i : Nat) :
    (zeroPad padding i).data =
      List.replicate (padding - (toString i).length) '0' ++ (toString i).data := rfl

lemma zeroPad_one_ne_two (padding : Nat) : zeroPad padding 1 ≠ zeroPad padding 2 := by
  intro h
  have h2 := congrArg String.data h
  rw [zeroPad_data, zeroPad_data,
    show toString (1 : Nat) = "1" from rfl, show toString (2 : Nat) = "2" from rfl,
    show ("1" : String).length = 1 from rfl, show ("2" : String).length = 1 from rfl,
    show ("1" : String).data = ['1'] from rfl, show ("2" : String).data = ['2'] from rfl] at h2
  have h3 := append_cancel_left_chars _ _ _ h2
  simp at h3

lemma tresName_two_ne_one (pfx : String) (padding : Nat) :
    tresName pfx padding 2 ≠ tresName pfx padding 1 := by
  intro h
  apply zeroPad_one_ne_two padding
  have h2 := congrArg String.data h
  simp only [tresName, base_name, string_data_append, List.append_assoc] at h2
  have h3 := append_cancel_left_chars _ _ _ h2
  have h4 := append_cancel_left_chars _ _ _ h3
  have hlen : (zeroPad padding 2).data.length = (zeroPad padding 1).data.length := by
    rw [zeroPad_data, zeroPad_data]
    simp only [List.length_append, List.length_replicate]
    rfl
  have h5 := (List.append_inj h4 hlen).1
  exact (string_ext h5).symm

/-- Soundness of the filename scan: a returned index is at or after the
start, its filename does not exist, and every index scanned before it
named an existing file. -/
lemma findFreeIndex_sound (ex : String → Bool) (pfx : String) (padding : Nat) :
    ∀ (fuel start i : Nat), findFreeIndex ex pfx padding fuel start = some i →
      start ≤ i ∧ ex (tresName pfx padding i) = false ∧
        ∀ j, start ≤ j → j < i → ex (tresName pfx padding j) = true := by
  intro fuel
  induction fuel with
  | zero => intro start i h; simp [findFreeIndex] at h
  | succ k ih =>
    intro start i h
    unfold findFreeIndex at h
    by_cases hx : ex (tresName pfx padding start) = true
    · rw [if_pos hx] at h
      obtain ⟨h1, h2, h3⟩ := ih (start + 1) i h
      refine ⟨by omega, h2, ?_⟩
      intro j hj1 hj2
      by_cases hj : j = start
      · subst hj; exact hx
      · exact h3 j (by omega) hj2
    · rw [if_neg hx] at h
      injection h with h
      subst h
      refine ⟨Nat.le_refl _, by simpa using hx, ?_⟩
      intro j hj1 hj2
      omega

/-- One unfolding step of the filename scan. -/
lemma findFreeIndex_succ (ex : String → Bool) (pfx : String) (padding fuel i : Nat) :
    findFreeIndex ex pfx padding (fuel + 1) i =
      if ex (tresName pfx padding i) then findFreeIndex ex pfx padding fuel (i + 1)
      else some i := rfl

/-- Completeness of the filename scan: if the filename at index
`start + k` does not exist, fuel `k + 1` suffices for the scan to
return an index. -/
lemma findFreeIndex_complete (ex : String → Bool) (pfx : String) (padding : Nat) :
    ∀ (k start : Nat), ex (tresName pfx padding (start + k)) = false →
      ∃ i, findFreeIndex ex pfx padding (k + 1) start = some i := by
  intro k
  induction k with
  | zero =>
    intro start h
    rw [Nat.add_zero] at h
    exact ⟨start, by simp [findFreeIndex, h]⟩
  | succ k ih =>
    intro start h
    by_cases hx : ex (tresName pfx padding start) = true
    · have h2 : ex (tresName pfx padding ((start + 1) + k)) = false := by
        have he : (start + 1) + k = start + (k + 1) := by omega
        rw [he]
        exact h
      obtain ⟨i, hi⟩ := ih (start + 1) h2
      exact ⟨i, by rw [findFreeIndex_succ, if_pos hx, hi]⟩
    · exact ⟨start, by simp [findFreeIndex, hx]⟩

/-! ### Concrete frames used by the witnesses -/

/-- A concrete 3-channel (opaque) frame. -/
def wFrame3 : Img :=
  { width := 2, height := 1, channels := 3, px := fun _ _ => ⟨10, 20, 30, 0⟩ }

/-- A concrete 4-channel frame whose pixels are fully transparent. -/
def wFrame4 : Img :=
  { width := 1, height := 2, channels := 4, px := fun _ _ => ⟨1, 2, 3, 0⟩ }

/-! ### Claims -/

/-- C1: for every non-empty batch of well-formed frames (3 or 4
channels, the data model's frame formats) and any grid inputs,
`create_sprite_sheet` (the spec's `pack`) succeeds and returns
`frame_count` equal to the input batch length, regardless of grid
capacity. -/
theorem C1_pack_frame_count (frames : List Img) (cc rr : Int)
    (hval : ∀ f ∈ frames, f.channels = 3 ∨ f.channels = 4) (hne : frames ≠ []) :
    ∃ res, create_sprite_sheet frames cc rr = Except.ok res ∧
      res.frame_count = frames.length :=
  ⟨_, create_sprite_sheet_eq frames cc rr hval hne, rfl⟩

/-- Witness for C1 at a concrete two-frame batch with a tiny grid
(capacity 1, so one frame is dropped from the composite). -/
theorem C1_pack_frame_count_witness :
    (∀ f ∈ [wFrame3, wFrame4], f.channels = 3 ∨ f.channels = 4) ∧
      ([wFrame3, wFrame4] ≠ ([] : List Img)) ∧
      ∃ res, create_sprite_sheet [wFrame3, wFrame4] 1 1 = Except.ok res ∧
        res.frame_count = [wFrame3, wFrame4].length :=
  ⟨by decide, List.cons_ne_nil _ _,
    C1_pack_frame_count [wFrame3, wFrame4] 1 1 (by decide) (List.cons_ne_nil _ _)⟩

/-- C2 (amended): the error message the code actually raises is
"Input images are empty." (not "no images provided"): on a batch of
well-formed frames `create_sprite_sheet` fails with that message exactly
when the batch is empty, and every non-empty batch succeeds. -/
theorem C2_empty_batch_error (frames : List Img) (cc rr : Int)
    (hval : ∀ f ∈ frames, f.channels = 3 ∨ f.channels = 4) :
    (create_sprite_sheet frames cc rr = Except.error "Input images are empty."
        ↔ frames = []) ∧
      (frames ≠ [] → ∃ res, create_sprite_sheet frames cc rr = Except.ok res) := by
  constructor
  · constructor
    · intro h
      by_contra hne
      rw [create_sprite_sheet_eq frames cc rr hval hne] at h
      simp at h
    · intro h
      subst h
      rfl
  · intro hne
    exact ⟨_, create_sprite_sheet_eq frames cc rr hval hne⟩

/-- Witness for C2 (amended) at the empty batch. -/
theorem C2_empty_batch_error_witness :
    (∀ f ∈ ([] : List Img), f.channels = 3 ∨ f.channels = 4) ∧
      ((create_sprite_sheet ([] : List Img) 8 0 = Except.error "Input images are empty."
          ↔ ([] : List Img) = []) ∧
        (([] : List Img) ≠ [] →
          ∃ res, create_sprite_sheet ([] : List Img) 8 0 = Except.ok res)) :=
  ⟨by decide, C2_empty_batch_error [] 8 0 (by decide)⟩

/-- C2 counterexample: at the explicit input of an empty batch the code
fails with the message "Input images are empty.", not the claimed
"no images provided", so the claimed equivalence is false as stated. -/
theorem C2_claim_counterexample :
    ¬ (create_sprite_sheet ([] : List Img) 8 0 = Except.error "no images provided"
        ↔ ([] : List Img) = []) ∧
      create_sprite_sheet ([] : List Img) 8 0 = Except.error "Input images are empty." := by
  constructor
  · intro h
    have h2 := h.mpr rfl
    rw [show create_sprite_sheet ([] : List Img) 8 0
        = Except.error "Input images are empty." from rfl] at h2
    injection h2 with h3
    exact absurd h3 (by decide)
  · rfl

/-- C3: on a non-empty well-formed batch with `column_count >= 1` and
`row_count <= 0`, the packer auto-computes the row count as the
ceiling-division formula `(frame_count + column_count - 1) / column_count`,
that value satisfies `column_count * row_count >= frame_count`, and the
composite is built with that row count (its height is
`frame_height * row_count`). -/
theorem C3_auto_row_count (frames : List Img) (cc rr : Int)
    (hval : ∀ f ∈ frames, f.channels = 3 ∨ f.channels = 4) (hne : frames ≠ [])
    (hcc : 1 ≤ cc) (hrr : rr ≤ 0) :
    coerceCols cc = cc.toNat ∧
      effRows frames.length (coerceCols cc) rr
        = (frames.length + cc.toNat - 1) / cc.toNat ∧
      frames.length ≤ cc.toNat * effRows frames.length (coerceCols cc) rr ∧
      ∃ res, create_sprite_sheet frames cc rr = Except.ok res ∧
        res.composite.height
          = res.frame_height * effRows frames.length (coerceCols cc) rr := by
  have hco : coerceCols cc = cc.toNat := by
    unfold coerceCols
    rw [if_neg (by omega)]
  have h1 : 1 ≤ cc.toNat := by omega
  have heff : effRows frames.length (coerceCols cc) rr
      = autoRowCount frames.length cc.toNat := by
    unfold effRows
    rw [if_pos hrr, hco]
  refine ⟨hco, ?_, ?_, ?_⟩
  · rw [heff]
    rfl
  · rw [heff]
    exact autoRowCount_ge _ _ h1
  · refine ⟨_, create_sprite_sheet_eq frames cc rr hval hne, ?_⟩
    simp [pasteLoop_height, Image_new]

/-- Witness for C3: one 3-channel frame, `column_count = 3`,
`row_count = 0`. -/
theorem C3_auto_row_count_witness :
    (∀ f ∈ [wFrame3], f.channels = 3 ∨ f.channels = 4) ∧ ([wFrame3] ≠ ([] : List Img)) ∧
      ((1 : Int) ≤ 3) ∧ ((0 : Int) ≤ 0) ∧
      (coerceCols 3 = (3 : Int).toNat ∧
        effRows [wFrame3].length (coerceCols 3) 0
          = ([wFrame3].length + (3 : Int).toNat - 1) / (3 : Int).toNat ∧
        [wFrame3].length ≤ (3 : Int).toNat * effRows [wFrame3].length (coerceCols 3) 0 ∧
        ∃ res, create_sprite_sheet [wFrame3] 3 0 = Except.ok res ∧
          res.composite.height
            = res.frame_height * effRows [wFrame3].length (coerceCols 3) 0) :=
  ⟨by decide, List.cons_ne_nil _ _, by decide, by decide,
    C3_auto_row_count [wFrame3] 3 0 (by decide) (List.cons_ne_nil _ _)
      (by decide) (by decide)⟩

/-- C4: on a non-empty well-formed batch, `create_sprite_sheet`
allocates the composite with width `frame_width * column_count` and
height `frame_height * row_count`, where `frame_width` and
`frame_height` are the maxima of the frame widths and heights, and the
freshly allocated canvas is fully transparent (all four components 0 at
every pixel). -/
theorem C4_canvas_allocation (frames : List Img) (cc rr : Int)
    (hval : ∀ f ∈ frames, f.channels = 3 ∨ f.channels = 4) (hne : frames ≠ []) :
    ∃ res, create_sprite_sheet frames cc rr = Except.ok res ∧
      res.frame_width = maxWidth frames ∧
      res.frame_height = maxHeight frames ∧
      (∀ f ∈ frames, f.width ≤ res.frame_width ∧ f.height ≤ res.frame_height) ∧
      res.composite.width = res.frame_width * coerceCols cc ∧
      res.composite.height
        = res.frame_height * effRows frames.length (coerceCols cc) rr ∧
      (∀ u v, (Image_new (res.frame_width * coerceCols cc)
          (res.frame_height * effRows frames.length (coerceCols cc) rr)).px u v
          = ⟨0, 0, 0, 0⟩) := by
  refine ⟨_, create_sprite_sheet_eq frames cc rr hval hne, rfl, rfl, ?_, ?_, ?_, ?_⟩
  · intro f hf
    exact ⟨mem_le_foldl_max Img.width frames 0 f hf,
      mem_le_foldl_max Img.height frames 0 f hf⟩
  · simp [pasteLoop_width, Image_new]
  · simp [pasteLoop_height, Image_new]
  · intro u v
    rfl

/-- Witness for C4 at a concrete two-frame batch. -/
theorem C4_canvas_allocation_witness :
    (∀ f ∈ [wFrame3, wFrame4], f.channels = 3 ∨ f.channels = 4) ∧
      ([wFrame3, wFrame4] ≠ ([] : List Img)) ∧
      ∃ res, create_sprite_sheet [wFrame3, wFrame4] 2 0 = Except.ok res ∧
        res.frame_width = maxWidth [wFrame3, wFrame4] ∧
        res.frame_height = maxHeight [wFrame3, wFrame4] ∧
        (∀ f ∈ [wFrame3, wFrame4],
          f.width ≤ res.frame_width ∧ f.height ≤ res.frame_height) ∧
        res.composite.width = res.frame_width * coerceCols 2 ∧
        res.composite.height
          = res.frame_height * effRows [wFrame3, wFrame4].length (coerceCols 2) 0 ∧
        (∀ u v, (Image_new (res.frame_width * coerceCols 2)
            (res.frame_height * effRows [wFrame3, wFrame4].length (coerceCols 2) 0)).px u v
            = ⟨0, 0, 0, 0⟩) :=
  ⟨by decide, List.cons_ne_nil _ _,
    C4_canvas_allocation [wFrame3, wFrame4] 2 0 (by decide) (List.cons_ne_nil _ _)⟩

/-- C5: the composite a successful `create_sprite_sheet` call returns is
exactly the fold of per-frame pastes over the first
`column_count * row_count` frames (every later frame is silently dropped,
with no error), where the frame of index `i` is pasted at destination
origin `((i % column_count) * frame_width, (i / column_count) * frame_height)`. -/
theorem C5_capacity_and_placement (frames : List Img) (cc rr : Int)
    (hval : ∀ f ∈ frames, f.channels = 3 ∨ f.channels = 4) (hne : frames ≠ []) :
    ∃ res, create_sprite_sheet frames cc rr = Except.ok res ∧
      res.composite =
        List.foldl
          (fun cv pr => pasteRegion cv pr.2
            (pr.1 % coerceCols cc * maxWidth frames)
            (pr.1 / coerceCols cc * maxHeight frames))
          (Image_new (maxWidth frames * coerceCols cc)
            (maxHeight frames * effRows frames.length (coerceCols cc) rr))
          (List.enum
            (List.take (coerceCols cc * effRows frames.length (coerceCols cc) rr)
              frames)) := by
  refine ⟨_, create_sprite_sheet_eq frames cc rr hval hne, ?_⟩
  rw [pasteLoop_eq_foldl]
  simp [List.enum]

/-- Witness for C5: two frames on a capacity-1 grid, so the second frame
is dropped. -/
theorem C5_capacity_and_placement_witness :
    (∀ f ∈ [wFrame3, wFrame4], f.channels = 3 ∨ f.channels = 4) ∧
      ([wFrame3, wFrame4] ≠ ([] : List Img)) ∧
      ∃ res, create_sprite_sheet [wFrame3, wFrame4] 1 1 = Except.ok res ∧
        res.composite =
          List.foldl
            (fun cv pr => pasteRegion cv pr.2
              (pr.1 % coerceCols 1 * maxWidth [wFrame3, wFrame4])
              (pr.1 / coerceCols 1 * maxHeight [wFrame3, wFrame4]))
            (Image_new (maxWidth [wFrame3, wFrame4] * coerceCols 1)
              (maxHeight [wFrame3, wFrame4]
                * effRows [wFrame3, wFrame4].length (coerceCols 1) 1))
            (List.enum
              (List.take (coerceCols 1 * effRows [wFrame3, wFrame4].length (coerceCols 1) 1)
                [wFrame3, wFrame4])) :=
  ⟨by decide, List.cons_ne_nil _ _,
    C5_capacity_and_placement [wFrame3, wFrame4] 1 1 (by decide) (List.cons_ne_nil _ _)⟩

/-- C6: in the emitted sub-resource sequence there is one block per
frame index; the block of index `i` (in emission order) declares the
rectangle `((i % column_count) * frame_width,
(i / column_count) * frame_height, frame_width, frame_height)` with the
1-based id `i + 1`, and the emitted text is the in-order concatenation
of the rendered blocks. -/
theorem C6_region_formula (fw fh fc c : Nat) (rid : String) :
    (subResourceBlocks fw fh fc c).length = fc ∧
      (∀ i, i < fc →
        (subResourceBlocks fw fh fc c)[i]? =
          some ⟨i + 1, i % c * fw, i / c * fh, fw, fh⟩) ∧
      sub_resources_text fw fh fc c rid =
        (subResourceBlocks fw fh fc c).foldl
          (fun acc b => acc ++ renderBlock b rid) "" := by
  refine ⟨by simp [subResourceBlocks], ?_, ?_⟩
  · intro i hi
    simp [subResourceBlocks, mkAtlasBlock, List.getElem?_map, List.getElem?_range, hi]
  · unfold sub_resources_text subResourceBlocks
    rw [List.foldl_map]

/-- Witness for C6 with the spec's end-to-end example
(`frame_width = frame_height = 64`, 4 frames, 2 columns): the third
block covers the cell at `(0, 64)`. -/
theorem C6_region_formula_witness :
    (2 < 4) ∧ (subResourceBlocks 64 64 4 2)[2]? = some ⟨3, 0, 64, 64, 64⟩ :=
  ⟨by decide, (C6_region_formula 64 64 4 2 "1_badcafe").2.1 2 (by decide)⟩

/-- C7: (a) whenever the filename scan returns an index, that index is
at or above 1, its `.tres` file does not already exist (no overwrite),
and every smaller index at or above 1 named an existing file — the scan
chooses the smallest free index; (b) on an initially empty directory two
successive calls with identical arguments choose index 1 and then
index 2, producing two distinct `.tres` files; (c) the paired image
filename always shares the chosen base name, with the `.png`
extension. -/
theorem C7_filename_selection (ex : String → Bool) (pfx : String)
    (padding fuel i : Nat)
    (h : findFreeIndex ex pfx padding fuel 1 = some i) :
    (ex (tresName pfx padding i) = false ∧ 1 ≤ i ∧
      ∀ j, 1 ≤ j → j < i → ex (tresName pfx padding j) = true) ∧
    (create_tres_file (fun _ => false) pfx padding 1 =
        some ⟨tresName pfx padding 1, pngName pfx padding 1⟩ ∧
      create_tres_file (afterWrite (fun _ => false) (tresName pfx padding 1))
          pfx padding 2 =
        some ⟨tresName pfx padding 2, pngName pfx padding 2⟩ ∧
      tresName pfx padding 1 ≠ tresName pfx padding 2) ∧
    (∀ (ex2 : String → Bool) (fuel2 : Nat) (r : TresCall),
      create_tres_file ex2 pfx padding fuel2 = some r →
      ∃ k, r.tres = base_name pfx padding k ++ ".tres" ∧
        r.png = base_name pfx padding k ++ ".png") := by
  obtain ⟨h1, h2, h3⟩ := findFreeIndex_sound ex pfx padding fuel 1 i h
  refine ⟨⟨h2, h1, h3⟩, ⟨?_, ?_, ?_⟩, ?_⟩
  · simp [create_tres_file, findFreeIndex]
  · have hne := tresName_two_ne_one pfx padding
    have e1 : afterWrite (fun _ => false) (tresName pfx padding 1)
        (tresName pfx padding 1) = true := by
      simp [afterWrite]
    have e2 : afterWrite (fun _ => false) (tresName pfx padding 1)
        (tresName pfx padding 2) = false := by
      simp [afterWrite, hne]
    simp [create_tres_file, findFreeIndex, e1, e2]
  · exact fun hh => tresName_two_ne_one pfx padding hh.symm
  · intro ex2 fuel2 r hr
    unfold create_tres_file at hr
    cases hfi : findFreeIndex ex2 pfx padding fuel2 1 with
    | none => rw [hfi] at hr; simp at hr
    | some k =>
      rw [hfi] at hr
      simp only [Option.map_some', Option.some.injEq] at hr
      exact ⟨k, by rw [← hr]; rfl, by rw [← hr]; rfl⟩

/-- Witness for C7: an empty directory, prefix "spritesheet", padding 1;
the scan returns index 1 with one unit of fuel. -/
theorem C7_filename_selection_witness :
    (findFreeIndex (fun _ => false) "spritesheet" 1 1 1 = some 1) ∧
      (((fun _ => false) (tresName "spritesheet" 1 1) = false ∧ 1 ≤ 1 ∧
        ∀ j, 1 ≤ j → j < 1 → (fun _ => false) (tresName "spritesheet" 1 j) = true) ∧
      (create_tres_file (fun _ => false) "spritesheet" 1 1 =
          some ⟨tresName "spritesheet" 1 1, pngName "spritesheet" 1 1⟩ ∧
        create_tres_file (afterWrite (fun _ => false) (tresName "spritesheet" 1 1))
            "spritesheet" 1 2 =
          some ⟨tresName "spritesheet" 1 2, pngName "spritesheet" 1 2⟩ ∧
        tresName "spritesheet" 1 1 ≠ tresName "spritesheet" 1 2) ∧
      (∀ (ex2 : String → Bool) (fuel2 : Nat) (r : TresCall),
        create_tres_file ex2 "spritesheet" 1 fuel2 = some r →
        ∃ k, r.tres = base_name "spritesheet" 1 k ++ ".tres" ∧
          r.png = base_name "spritesheet" 1 k ++ ".png")) :=
  ⟨rfl, C7_filename_selection (fun _ => false) "spritesheet" 1 1 1 rfl⟩

/-- If the frame carries an alpha channel, a mask value of 0 leaves the
background pixel unchanged. -/
lemma blendPx_zero (p q : RGBA) : blendPx p q 0 = q := by
  cases q with
  | mk r g b a =>
    simp only [blendPx, blendChannel, RGBA.mk.injEq]
    refine ⟨by omega, by omega, by omega, by omega⟩

/-- C8: when pasting a frame that carries a fourth (alpha) channel, the
frame's own alpha is the paste mask — at a pixel whose alpha is 0 the
canvas keeps its previous value (in particular its background
transparency); a frame without an alpha channel is pasted with no mask
and overwrites every pixel of its rectangle (alpha forced to fully
opaque). -/
theorem C8_alpha_mask :
    (∀ (canvas img : Img) (x y u v : Nat),
      img.channels = 4 →
      x ≤ u → u < x + img.width → y ≤ v → v < y + img.height →
      (img.px (u - x) (v - y)).a = 0 →
      (pasteRegion canvas img x y).px u v = canvas.px u v) ∧
    (∀ (canvas img : Img) (x y u v : Nat),
      img.channels = 3 →
      x ≤ u → u < x + img.width → y ≤ v → v < y + img.height →
      (pasteRegion canvas img x y).px u v =
        ⟨(img.px (u - x) (v - y)).r, (img.px (u - x) (v - y)).g,
         (img.px (u - x) (v - y)).b, 255⟩) := by
  constructor
  · intro canvas img x y u v h4 hxu hux hyv hvy ha
    rw [pasteRegion_px, if_pos ⟨hxu, hux, hyv, hvy⟩, if_pos h4, ha]
    exact blendPx_zero _ _
  · intro canvas img x y u v h3 hxu hux hyv hvy
    rw [pasteRegion_px, if_pos ⟨hxu, hux, hyv, hvy⟩, if_neg (by omega)]

/-- Witness for C8: a fully transparent 1-by-1 RGBA frame pasted onto a
fresh canvas keeps the canvas pixel; a 1-by-1 RGB frame overwrites it
with opaque alpha. -/
theorem C8_alpha_mask_witness :
    (wFrame4.channels = 4 ∧ (wFrame4.px 0 0).a = 0 ∧
      (pasteRegion (Image_new 2 2) wFrame4 0 0).px 0 0 = (Image_new 2 2).px 0 0) ∧
    (wFrame3.channels = 3 ∧
      (pasteRegion (Image_new 2 2) wFrame3 0 0).px 0 0 =
        ⟨(wFrame3.px 0 0).r, (wFrame3.px 0 0).g, (wFrame3.px 0 0).b, 255⟩) :=
  ⟨⟨rfl, rfl,
    C8_alpha_mask.1 (Image_new 2 2) wFrame4 0 0 0 0 rfl (by decide) (by decide)
      (by decide) (by decide) rfl⟩,
   ⟨rfl,
    C8_alpha_mask.2 (Image_new 2 2) wFrame3 0 0 0 0 rfl (by decide) (by decide)
      (by decide) (by decide)⟩⟩

/-- C9: every successful `create_sprite_sheet` call — on any batch, with
any grid inputs — returns a four-channel composite whose tensor shape
has a leading batch dimension of 1; in particular this holds even when
every input frame was 3-channel (opaque), so the output representation
is RGBA regardless of the input channel count. -/
theorem C9_output_rgba_batch (frames : List Img) (cc rr : Int) (res : PackResult)
    (h : create_sprite_sheet frames cc rr = Except.ok res) :
    res.composite.channels = 4 ∧
      pil_to_tensor_shape res.composite =
        [1, res.composite.height, res.composite.width, 4] := by
  simp only [create_sprite_sheet] at h
  split at h
  · simp at h
  · simp only [Except.ok.injEq] at h
    subst h
    constructor
    · simp [pasteLoop_channels, Image_new]
    · simp [pil_to_tensor_shape, pasteLoop_channels, Image_new]

/-- The concrete result of packing a batch of one 3-channel frame. -/
def wRes : PackResult :=
  { composite :=
      pasteLoop (maxWidth [wFrame3]) (maxHeight [wFrame3]) (coerceCols 8)
        (coerceCols 8 * effRows [wFrame3].length (coerceCols 8) 0)
        (Image_new (maxWidth [wFrame3] * coerceCols 8)
          (maxHeight [wFrame3] * effRows [wFrame3].length (coerceCols 8) 0))
        0 [wFrame3]
    frame_width := maxWidth [wFrame3]
    frame_height := maxHeight [wFrame3]
    frame_count := [wFrame3].length }

/-- Witness for C9: a successful call on a batch of one 3-channel
frame. -/
theorem C9_output_rgba_batch_witness :
    (create_sprite_sheet [wFrame3] 8 0 = Except.ok wRes) ∧
      (wRes.composite.channels = 4 ∧
        pil_to_tensor_shape wRes.composite =
          [1, wRes.composite.height, wRes.composite.width, 4]) :=
  ⟨create_sprite_sheet_eq [wFrame3] 8 0 (by decide) (List.cons_ne_nil _ _),
    C9_output_rgba_batch [wFrame3] 8 0 wRes
      (create_sprite_sheet_eq [wFrame3] 8 0 (by decide) (List.cons_ne_nil _ _))⟩

/-- C10: if only finitely many sequence indices name an already-existing
file, the filename-selection loop terminates: some amount of fuel makes
the scan return an index, that index's file does not exist, and it is
the smallest such index at or above 1. -/
theorem C10_scan_terminates (ex : String → Bool) (pfx : String) (padding : Nat)
    (hfin : Set.Finite {j : Nat | ex (tresName pfx padding j) = true}) :
    ∃ fuel i, findFreeIndex ex pfx padding fuel 1 = some i ∧
      ex (tresName pfx padding i) = false ∧ 1 ≤ i ∧
      ∀ j, 1 ≤ j → j < i → ex (tresName pfx padding j) = true := by
  obtain ⟨b, hb⟩ := hfin.bddAbove
  have hfree : ex (tresName pfx padding (1 + b)) = false := by
    cases hh : ex (tresName pfx padding (1 + b)) with
    | false => rfl
    | true =>
      have hmem : (1 + b) ∈ {j : Nat | ex (tresName pfx padding j) = true} := hh
      have := hb hmem
      omega
  obtain ⟨i, hi⟩ := findFreeIndex_complete ex pfx padding b 1 hfree
  obtain ⟨h1, h2, h3⟩ := findFreeIndex_sound ex pfx padding (b + 1) 1 i hi
  exact ⟨b + 1, i, hi, h2, h1, h3⟩

/-- Witness for C10: the empty directory (no index names an existing
file). -/
theorem C10_scan_terminates_witness :
    (Set.Finite {j : Nat | (fun _ => false) (tresName "spritesheet" 1 j) = true}) ∧
      ∃ fuel i, findFreeIndex (fun _ => false) "spritesheet" 1 fuel 1 = some i ∧
        (fun _ => false) (tresName "spritesheet" 1 i) = false ∧ 1 ≤ i ∧
        ∀ j, 1 ≤ j → j < i →
          (fun _ => false) (tresName "spritesheet" 1 j) = true :=
  ⟨by simp, C10_scan_terminates (fun _ => false) "spritesheet" 1 (by simp)⟩
